import Mathlib

/-!
Verification development for the transmission-rpc client
(src/src/lib.rs).  The RPC data model lives in the crate's `types`
module, which is declared by lib.rs (`pub mod types;`) but whose file is
not part of the sources; those definitions are modelled from the spec
and marked as such.  Everything else is a shallow embedding of
src/src/lib.rs: the client struct, `rpc_request`, `get_session_id`,
the generic `call`, and the three typed operations.

The transport (reqwest) is external: it is modelled as a function from
an outbound HTTP request to either a transport failure or an HTTP
response.  JSON decoding of a response body into a typed envelope
(serde) is likewise external and is passed as a decoding function.
Rust panics (`unwrap` / `expect`) are modelled as a distinct outcome
constructor, separate from errors returned through `?`.

Each embedded operation also returns the list of HTTP requests it
dispatched, in order, so that round-trip counts and per-request header
contents can be stated.
-/

namespace TransmissionRpc

/-- Modelled from the spec: basic-auth credentials (crate `types` module,
not in src).  "Credentials: user, password.  Immutable once set." -/
structure BasicAuth where
  user : String
  password : String
deriving Repr, DecidableEq

/-- Modelled from the spec: the closed enumeration of requestable
torrent-get field names (crate `types` module, not in src). -/
inductive TorrentGetField
  | id
  | name
  | status
  | totalSize
  | isFinished
deriving Repr, DecidableEq

/-- Modelled from the spec: the closed enumeration of torrent action
verbs (crate `types` module, not in src). -/
inductive TorrentAction
  | start
  | stop
  | verify
  | remove
deriving Repr, DecidableEq

/-- Modelled from the spec: each action verb becomes the RPC method
name, in its lowercase-hyphenated protocol form. -/
def TorrentAction.toMethod : TorrentAction → String
  | .start => "torrent-start"
  | .stop => "torrent-stop"
  | .verify => "torrent-verify"
  | .remove => "torrent-remove"

/-- Modelled from the spec: the argument object of a request envelope.
Empty for session-get, a field list for torrent-get, an id list for
torrent actions. -/
inductive RequestArgs
  | emptyArgs
  | fields (fields : List TorrentGetField)
  | ids (ids : List Int)
deriving Repr, DecidableEq

/-- Modelled from the spec: the request envelope
(method string plus method-specific arguments). -/
structure RpcRequest where
  method : String
  arguments : RequestArgs
deriving Repr, DecidableEq

/-- Modelled from the spec: RpcRequest constructor for session-get
(no arguments). -/
def RpcRequest.session_get : RpcRequest :=
  { method := "session-get", arguments := RequestArgs.emptyArgs }

/-- Modelled from the spec: RpcRequest constructor for torrent-get with
the list of requested fields. -/
def RpcRequest.torrent_get (fields : List TorrentGetField) : RpcRequest :=
  { method := "torrent-get", arguments := RequestArgs.fields fields }

/-- Modelled from the spec: RpcRequest constructor for a torrent action;
the action verb becomes the method name and the ids are the arguments. -/
def RpcRequest.torrent_action (action : TorrentAction) (ids : List Int) : RpcRequest :=
  { method := action.toMethod, arguments := RequestArgs.ids ids }

/-- Modelled from the spec: the response envelope, generic over the
expected argument shape. -/
structure RpcResponse (T : Type) where
  result : String
  arguments : T
deriving Repr, DecidableEq

/-- Modelled from the spec: session settings payload for session-get
(shape details are irrelevant to the protocol claims). -/
structure SessionGet where
  version : Option String := none
deriving Repr, DecidableEq

/-- Modelled from the spec: one torrent record (optional fields,
populated according to the requested field list). -/
structure Torrent where
  id : Option Int := none
  name : Option String := none
  status : Option Int := none
deriving Repr, DecidableEq

/-- Modelled from the spec: the torrent-get payload, an ordered
sequence of records. -/
structure Torrents (T : Type) where
  torrents : List T
deriving Repr, DecidableEq

/-- Modelled from the spec: the payload of a method whose success
response carries no meaningful data. -/
structure Nothing where
deriving Repr, DecidableEq

/-- The client struct of src/src/lib.rs lines 19-22: an endpoint URL and
optional basic-auth credentials, nothing else. -/
structure TransClient where
  url : String
  auth : Option BasicAuth
deriving Repr, DecidableEq

/-- Constructor with_auth (src/src/lib.rs lines 26-31). -/
def TransClient.with_auth (url : String) (basic_auth : BasicAuth) : TransClient :=
  { url := url, auth := some basic_auth }

/-- Constructor new (src/src/lib.rs lines 34-39): no auth. -/
def TransClient.new (url : String) : TransClient :=
  { url := url, auth := none }

/-- An outbound HTTP POST request as this client builds it: target URL,
optional basic-auth header, Content-Type header, optional
X-Transmission-Session-Id header, optional JSON body. -/
structure HttpRequest where
  url : String
  auth : Option BasicAuth
  contentType : String
  sessionId : Option String
  body : Option RpcRequest
deriving Repr, DecidableEq

/-- A transport-level failure (connection refused, timeout, TLS), the
cases in which reqwest's send returns Err. -/
inductive TransportFailure
  | connectionRefused
  | timeout
  | tlsFailure
  | other (msg : String)
deriving Repr, DecidableEq

/-- An HTTP response delivered by the transport: status code, headers
(names in lowercase, as reqwest normalizes them), raw body text. -/
structure HttpResponse where
  status : Nat
  headers : List (String × String)
  body : String
deriving Repr, DecidableEq

/-- Header lookup by (lowercase) name, as reqwest's HeaderMap get. -/
def headerGet (headers : List (String × String)) (name : String) : Option String :=
  (headers.find? (fun p => p.fst == name)).map (fun p => p.snd)

/-- The external transport: a function from an outbound request to
either a transport failure or a response. -/
def Transport : Type :=
  HttpRequest → Except TransportFailure HttpResponse

/-- Modelled from the spec: the error taxonomy of the crate's result
type (`types` module, not in src).  TransportError wraps the underlying
transport failure; ProtocolError is the missing-session-header
condition; DecodeError carries the parse-failure context. -/
inductive RpcError
  | TransportError (e : TransportFailure)
  | ProtocolError
  | DecodeError (msg : String)
deriving Repr, DecidableEq

/-- Outcome of an embedded operation: a Rust panic (unwrap or expect on
a failed value), an error returned to the caller through the question
mark operator, or a normal return. -/
inductive Outcome (α : Type)
  | panicked (msg : String)
  | failure (e : RpcError)
  | ok (value : α)
deriving Repr, DecidableEq

/-- Embedding of rpc_request (src/src/lib.rs lines 42-51): a fresh
reqwest client posting to the configured URL, with the basic-auth
header exactly when credentials are configured, and
Content-Type application/json.  No session header and no body yet. -/
def TransClient.rpc_request (c : TransClient) : HttpRequest :=
  { url := c.url
    auth := c.auth
    contentType := "application/json"
    sessionId := none
    body := none }

/-- The builder step .json(body): attach a JSON-encoded request body. -/
def HttpRequest.jsonBody (r : HttpRequest) (rq : RpcRequest) : HttpRequest :=
  { r with body := some rq }

/-- The builder step .header with X-Transmission-Session-Id. -/
def HttpRequest.withSessionId (r : HttpRequest) (sid : String) : HttpRequest :=
  { r with sessionId := some sid }

/-- The request sent by get_session_id: rpc_request with a session-get
body and no session header (src/src/lib.rs lines 61-62). -/
def tokenFetchRequest (c : TransClient) : HttpRequest :=
  (c.rpc_request).jsonBody RpcRequest.session_get

/-- The request sent by the generic call for the actual operation:
rpc_request with the fetched session id and the JSON body of the
request envelope (src/src/lib.rs lines 124-126). -/
def operationRequest (c : TransClient) (sid : String) (request : RpcRequest) : HttpRequest :=
  ((c.rpc_request).withSessionId sid).jsonBody request

/-- Embedding of get_session_id (src/src/lib.rs lines 59-74): send a
session-get request, .unwrap() the transport result (panicking on a
transport failure), then .expect the x-transmission-session-id header
(panicking with "Unable to get session id" when it is absent).  Also
returns the list of dispatched requests. -/
def TransClient.get_session_id (c : TransClient) (t : Transport) :
    Outcome String × List HttpRequest :=
  match t (tokenFetchRequest c) with
  | Except.error _ => (Outcome.panicked "called unwrap on an Err value", [tokenFetchRequest c])
  | Except.ok response =>
    match headerGet response.headers "x-transmission-session-id" with
    | none => (Outcome.panicked "Unable to get session id", [tokenFetchRequest c])
    | some sid => (Outcome.ok sid, [tokenFetchRequest c])

/-- Embedding of the generic call (src/src/lib.rs lines 120-132):
await get_session_id (propagating its panic), build the operation
request from a fresh rpc_request with the session header and the JSON
body, send it (the question mark operator turns a transport failure
into an error return), then decode the body as the typed envelope (the
question mark operator turns a decode failure into an error return).
The decoding function stands for serde's typed JSON decode for the
expected response shape RS.  Also returns the dispatched requests in
order. -/
def TransClient.call (c : TransClient) {RS : Type}
    (decode : String → Except String (RpcResponse RS))
    (t : Transport) (request : RpcRequest) :
    Outcome (RpcResponse RS) × List HttpRequest :=
  match c.get_session_id t with
  | (Outcome.panicked m, tr) => (Outcome.panicked m, tr)
  | (Outcome.failure e, tr) => (Outcome.failure e, tr)
  | (Outcome.ok sid, tr) =>
    let rq := operationRequest c sid request
    match t rq with
    | Except.error e => (Outcome.failure (RpcError.TransportError e), tr ++ [rq])
    | Except.ok resp =>
      match decode resp.body with
      | Except.error msg => (Outcome.failure (RpcError.DecodeError msg), tr ++ [rq])
      | Except.ok r => (Outcome.ok r, tr ++ [rq])

/-- Embedding of session_get (src/src/lib.rs lines 85-87): delegate to
call with the session-get request and the SessionGet response shape. -/
def TransClient.session_get (c : TransClient)
    (decode : String → Except String (RpcResponse SessionGet)) (t : Transport) :
    Outcome (RpcResponse SessionGet) × List HttpRequest :=
  c.call decode t RpcRequest.session_get

/-- Embedding of torrent_get (src/src/lib.rs lines 98-100): delegate to
call with the torrent-get request and the Torrents Torrent shape. -/
def TransClient.torrent_get (c : TransClient)
    (decode : String → Except String (RpcResponse (Torrents Torrent))) (t : Transport)
    (fields : List TorrentGetField) :
    Outcome (RpcResponse (Torrents Torrent)) × List HttpRequest :=
  c.call decode t (RpcRequest.torrent_get fields)

/-- Embedding of torrent_action (src/src/lib.rs lines 111-113):
delegate to call with the action request and the Nothing shape. -/
def TransClient.torrent_action (c : TransClient)
    (decode : String → Except String (RpcResponse Nothing)) (t : Transport)
    (action : TorrentAction) (ids : List Int) :
    Outcome (RpcResponse Nothing) × List HttpRequest :=
  c.call decode t (RpcRequest.torrent_action action ids)

/-!
State-passing reading of the client methods.  In the source every
method takes the client by shared reference (&self) and the struct has
no interior mutability, so the state-passing embedding of a method
returns the client it finished with alongside the result; mirroring the
source, that client is the one it started from, untouched.
-/

/-- State-passing embedding of the generic call (&self method,
src/src/lib.rs lines 120-132): result plus the client state after the
call. -/
def TransClient.callS (c : TransClient) {RS : Type}
    (decode : String → Except String (RpcResponse RS))
    (t : Transport) (request : RpcRequest) :
    (Outcome (RpcResponse RS) × List HttpRequest) × TransClient :=
  (c.call decode t request, c)

/-- State-passing embedding of session_get (&self method). -/
def TransClient.session_getS (c : TransClient)
    (decode : String → Except String (RpcResponse SessionGet)) (t : Transport) :
    (Outcome (RpcResponse SessionGet) × List HttpRequest) × TransClient :=
  (c.session_get decode t, c)

/-- State-passing embedding of torrent_get (&self method). -/
def TransClient.torrent_getS (c : TransClient)
    (decode : String → Except String (RpcResponse (Torrents Torrent))) (t : Transport)
    (fields : List TorrentGetField) :
    (Outcome (RpcResponse (Torrents Torrent)) × List HttpRequest) × TransClient :=
  (c.torrent_get decode t fields, c)

/-- State-passing embedding of torrent_action (&self method). -/
def TransClient.torrent_actionS (c : TransClient)
    (decode : String → Except String (RpcResponse Nothing)) (t : Transport)
    (action : TorrentAction) (ids : List Int) :
    (Outcome (RpcResponse Nothing) × List HttpRequest) × TransClient :=
  (c.torrent_action decode t action ids, c)

/-!
Concrete fixtures used by witnesses and counterexamples.
-/

/-- A transport that answers every request with a 200 response carrying
no headers at all (in particular no session-id header). -/
def tNoHeader : Transport :=
  fun _ => Except.ok { status := 200, headers := [], body := "" }

/-- A transport on which every connection is refused. -/
def tRefused : Transport :=
  fun _ => Except.error TransportFailure.connectionRefused

/-- A transport that answers the token fetch (no session header on the
request) with the session-id header abc123, and refuses the connection
for the operation request. -/
def tOpRefused : Transport :=
  fun r =>
    match r.sessionId with
    | none => Except.ok
        { status := 200
          headers := [("x-transmission-session-id", "abc123")]
          body := "" }
    | some _ => Except.error TransportFailure.connectionRefused

/-- A transport that answers the token fetch with the session-id header
abc123 and answers the operation request with the given status and
body. -/
def tAnswer (status : Nat) (body : String) : Transport :=
  fun r =>
    match r.sessionId with
    | none => Except.ok
        { status := 200
          headers := [("x-transmission-session-id", "abc123")]
          body := "" }
    | some _ => Except.ok { status := status, headers := [], body := body }

/-- A decoder for the Torrents shape that fails on every body. -/
def decodeTorrentsFail : String → Except String (RpcResponse (Torrents Torrent)) :=
  fun b => Except.error ("invalid body: " ++ b)

/-- A decoder for the Torrents shape that returns one fixed record. -/
def decodeTorrentsOk : String → Except String (RpcResponse (Torrents Torrent)) :=
  fun _ => Except.ok
    { result := "success"
      arguments := { torrents := [{ id := some 1, name := some "x", status := none }] } }

/-- A decoder for the SessionGet shape returning a non-success result
field. -/
def decodeSessionNotSuccess : String → Except String (RpcResponse SessionGet) :=
  fun _ => Except.ok { result := "invalid torrent id", arguments := {} }

/-- A decoder for the Nothing shape returning an empty success
envelope. -/
def decodeNothingOk : String → Except String (RpcResponse Nothing) :=
  fun _ => Except.ok { result := "success", arguments := {} }

/-!
Helper lemmas about the embedded operations, shared by the claim
theorems below.
-/

/-- When the transport answers the token fetch and the session-id header
is present, get_session_id returns that header value, having sent
exactly the token-fetch request. -/
theorem get_session_id_ok (c : TransClient) (t : Transport)
    (resp : HttpResponse) (sid : String)
    (hresp : t (tokenFetchRequest c) = Except.ok resp)
    (hhdr : headerGet resp.headers "x-transmission-session-id" = some sid) :
    c.get_session_id t = (Outcome.ok sid, [tokenFetchRequest c]) := by
  unfold TransClient.get_session_id
  rw [hresp]
  dsimp only
  rw [hhdr]

/-- Whatever the transport does, get_session_id dispatches exactly the
token-fetch request. -/
theorem get_session_id_trace (c : TransClient) (t : Transport) :
    (c.get_session_id t).snd = [tokenFetchRequest c] := by
  unfold TransClient.get_session_id
  cases hresp : t (tokenFetchRequest c) with
  | error e => rfl
  | ok resp =>
    dsimp only
    cases hhdr : headerGet resp.headers "x-transmission-session-id" <;> rfl

/-- Evaluation of the generic call once the token fetch has succeeded:
the operation request goes out with the fetched session id, and the
outcome is determined by the transport's answer to it and by the
decoder; the trace is exactly the two requests. -/
theorem call_eval (c : TransClient) {RS : Type}
    (decode : String → Except String (RpcResponse RS))
    (t : Transport) (request : RpcRequest)
    (resp : HttpResponse) (sid : String)
    (hresp : t (tokenFetchRequest c) = Except.ok resp)
    (hhdr : headerGet resp.headers "x-transmission-session-id" = some sid) :
    c.call decode t request =
      (match t (operationRequest c sid request) with
       | Except.error e => Outcome.failure (RpcError.TransportError e)
       | Except.ok respOp =>
         match decode respOp.body with
         | Except.error msg => Outcome.failure (RpcError.DecodeError msg)
         | Except.ok r => Outcome.ok r,
       [tokenFetchRequest c, operationRequest c sid request]) := by
  unfold TransClient.call
  rw [get_session_id_ok c t resp sid hresp hhdr]
  dsimp only
  cases hop : t (operationRequest c sid request) with
  | error e => rfl
  | ok respOp =>
    dsimp only
    cases hdec : decode respOp.body <;> rfl

/-- Every request dispatched by the generic call is either the
token-fetch request or the operation request for some session id: each
is built from a fresh rpc_request of the client, nothing else. -/
theorem call_trace_mem (c : TransClient) {RS : Type}
    (decode : String → Except String (RpcResponse RS))
    (t : Transport) (request : RpcRequest) :
    ∀ r ∈ (c.call decode t request).snd,
      r = tokenFetchRequest c ∨ ∃ sid, r = operationRequest c sid request := by
  intro r hr
  unfold TransClient.call TransClient.get_session_id at hr
  cases hresp : t (tokenFetchRequest c) with
  | error e =>
    rw [hresp] at hr
    simp only [List.mem_singleton] at hr
    exact Or.inl hr
  | ok resp =>
    rw [hresp] at hr
    dsimp only at hr
    cases hhdr : headerGet resp.headers "x-transmission-session-id" with
    | none =>
      rw [hhdr] at hr
      simp only [List.mem_singleton] at hr
      exact Or.inl hr
    | some sid =>
      rw [hhdr] at hr
      dsimp only at hr
      cases hop : t (operationRequest c sid request) with
      | error e =>
        rw [hop] at hr
        simp only [List.mem_append, List.mem_singleton] at hr
        rcases hr with h | h
        · exact Or.inl h
        · exact Or.inr ⟨sid, h⟩
      | ok respOp =>
        rw [hop] at hr
        dsimp only at hr
        cases hdec : decode respOp.body with
        | error msg =>
          rw [hdec] at hr
          simp only [List.mem_append, List.mem_singleton] at hr
          rcases hr with h | h
          · exact Or.inl h
          · exact Or.inr ⟨sid, h⟩
        | ok rr =>
          rw [hdec] at hr
          simp only [List.mem_append, List.mem_singleton] at hr
          rcases hr with h | h
          · exact Or.inl h
          · exact Or.inr ⟨sid, h⟩

/-!
Claim theorems.
-/

/-- C1, counterexample: on a client whose transport responds to the
token fetch without the x-transmission-session-id header, the
token-fetch operation does not fail with a ProtocolError returned to
the caller: it panics (expect on a missing header), so the claimed
error-return behaviour is false at this concrete input. -/
theorem token_fetch_missing_header_no_protocol_error :
    ((TransClient.new "http://host/rpc").get_session_id tNoHeader).fst
        = Outcome.panicked "Unable to get session id"
    ∧ ((TransClient.new "http://host/rpc").get_session_id tNoHeader).fst
        ≠ Outcome.failure RpcError.ProtocolError := by
  exact ⟨rfl, by decide⟩

/-- C1, amended: for every client and every transport outcome in which
the server responds to the token fetch without the
x-transmission-session-id header, get_session_id panics with the
message "Unable to get session id" (it aborts rather than returning a
ProtocolError value), and in particular never returns a token value. -/
theorem token_fetch_missing_header_panics (c : TransClient) (t : Transport)
    (resp : HttpResponse)
    (hresp : t (tokenFetchRequest c) = Except.ok resp)
    (hhdr : headerGet resp.headers "x-transmission-session-id" = none) :
    (c.get_session_id t).fst = Outcome.panicked "Unable to get session id" := by
  unfold TransClient.get_session_id
  rw [hresp]
  dsimp only
  rw [hhdr]

/-- C1, witness for the amended theorem at a concrete client and
transport. -/
theorem token_fetch_missing_header_panics_witness :
    ((TransClient.new "http://host/rpc").get_session_id tNoHeader).fst
      = Outcome.panicked "Unable to get session id" :=
  token_fetch_missing_header_panics (TransClient.new "http://host/rpc") tNoHeader
    { status := 200, headers := [], body := "" } rfl rfl

/-- C2, counterexample: with a transport on which every connection is
refused, torrent_get does not return a TransportError failure value to
the caller: the token fetch inside the call unwraps the failed send and
panics, so the claimed behaviour is false at this concrete input. -/
theorem torrent_get_refused_no_transport_error :
    ((TransClient.new "http://host/rpc").torrent_get decodeTorrentsFail tRefused
        [TorrentGetField.id, TorrentGetField.name]).fst
      = Outcome.panicked "called unwrap on an Err value"
    ∧ ((TransClient.new "http://host/rpc").torrent_get decodeTorrentsFail tRefused
        [TorrentGetField.id, TorrentGetField.name]).fst
      ≠ Outcome.failure (RpcError.TransportError TransportFailure.connectionRefused) := by
  exact ⟨rfl, by decide⟩

/-- C2, amended: when the token fetch round trip succeeds and the
transport then fails outright on the operation request, torrent_get
returns a TransportError failure value to the caller; the conclusion
does not depend on the decoding function, so the failure is returned
before any decode is attempted.  (When the transport already fails on
the token-fetch round trip, the call panics instead, as the C2
counterexample shows.) -/
theorem torrent_get_transport_error_before_decode (c : TransClient)
    (decode : String → Except String (RpcResponse (Torrents Torrent)))
    (t : Transport) (fields : List TorrentGetField)
    (resp : HttpResponse) (sid : String) (e : TransportFailure)
    (hresp : t (tokenFetchRequest c) = Except.ok resp)
    (hhdr : headerGet resp.headers "x-transmission-session-id" = some sid)
    (hop : t (operationRequest c sid (RpcRequest.torrent_get fields)) = Except.error e) :
    (c.torrent_get decode t fields).fst
      = Outcome.failure (RpcError.TransportError e) := by
  unfold TransClient.torrent_get
  rw [call_eval c decode t (RpcRequest.torrent_get fields) resp sid hresp hhdr]
  dsimp only
  rw [hop]

/-- C2, witness for the amended theorem: the token fetch succeeds with
session id abc123, then the operation connection is refused and the
TransportError is returned. -/
theorem torrent_get_transport_error_before_decode_witness :
    ((TransClient.new "http://host/rpc").torrent_get decodeTorrentsFail tOpRefused
        [TorrentGetField.id]).fst
      = Outcome.failure (RpcError.TransportError TransportFailure.connectionRefused) :=
  torrent_get_transport_error_before_decode (TransClient.new "http://host/rpc")
    decodeTorrentsFail tOpRefused [TorrentGetField.id]
    { status := 200
      headers := [("x-transmission-session-id", "abc123")]
      body := "" }
    "abc123" TransportFailure.connectionRefused rfl (by decide) rfl

/-- C3: whenever the token fetch round trip succeeds with a session id,
each typed operation dispatches exactly two HTTP POST requests: first
the session-get token fetch carrying no X-Transmission-Session-Id
header, then the operation request carrying exactly the freshly fetched
token; the token comes from this call's own fetch response, not from
any cache. -/
theorem typed_operations_two_round_trips (c : TransClient)
    (decS : String → Except String (RpcResponse SessionGet))
    (decT : String → Except String (RpcResponse (Torrents Torrent)))
    (decN : String → Except String (RpcResponse Nothing))
    (t : Transport) (fields : List TorrentGetField)
    (action : TorrentAction) (ids : List Int)
    (resp : HttpResponse) (sid : String)
    (hresp : t (tokenFetchRequest c) = Except.ok resp)
    (hhdr : headerGet resp.headers "x-transmission-session-id" = some sid) :
    (c.session_get decS t).snd
        = [tokenFetchRequest c, operationRequest c sid RpcRequest.session_get]
    ∧ (c.torrent_get decT t fields).snd
        = [tokenFetchRequest c, operationRequest c sid (RpcRequest.torrent_get fields)]
    ∧ (c.torrent_action decN t action ids).snd
        = [tokenFetchRequest c, operationRequest c sid (RpcRequest.torrent_action action ids)]
    ∧ (tokenFetchRequest c).sessionId = none
    ∧ (operationRequest c sid RpcRequest.session_get).sessionId = some sid
    ∧ (operationRequest c sid (RpcRequest.torrent_get fields)).sessionId = some sid
    ∧ (operationRequest c sid (RpcRequest.torrent_action action ids)).sessionId = some sid := by
  refine ⟨?_, ?_, ?_, rfl, rfl, rfl, rfl⟩
  · unfold TransClient.session_get
    rw [call_eval c decS t RpcRequest.session_get resp sid hresp hhdr]
  · unfold TransClient.torrent_get
    rw [call_eval c decT t (RpcRequest.torrent_get fields) resp sid hresp hhdr]
  · unfold TransClient.torrent_action
    rw [call_eval c decN t (RpcRequest.torrent_action action ids) resp sid hresp hhdr]

/-- C3, witness at a concrete client, transport and operation inputs. -/
theorem typed_operations_two_round_trips_witness :
    ((TransClient.new "http://host/rpc").session_get decodeSessionNotSuccess
        (tAnswer 200 "")).snd
        = [tokenFetchRequest (TransClient.new "http://host/rpc"),
           operationRequest (TransClient.new "http://host/rpc") "abc123"
             RpcRequest.session_get]
    ∧ ((TransClient.new "http://host/rpc").torrent_get decodeTorrentsOk
        (tAnswer 200 "") [TorrentGetField.id, TorrentGetField.name]).snd
        = [tokenFetchRequest (TransClient.new "http://host/rpc"),
           operationRequest (TransClient.new "http://host/rpc") "abc123"
             (RpcRequest.torrent_get [TorrentGetField.id, TorrentGetField.name])]
    ∧ ((TransClient.new "http://host/rpc").torrent_action decodeNothingOk
        (tAnswer 200 "") TorrentAction.start [1, 2, 3]).snd
        = [tokenFetchRequest (TransClient.new "http://host/rpc"),
           operationRequest (TransClient.new "http://host/rpc") "abc123"
             (RpcRequest.torrent_action TorrentAction.start [1, 2, 3])]
    ∧ (tokenFetchRequest (TransClient.new "http://host/rpc")).sessionId = none
    ∧ (operationRequest (TransClient.new "http://host/rpc") "abc123"
        RpcRequest.session_get).sessionId = some "abc123"
    ∧ (operationRequest (TransClient.new "http://host/rpc") "abc123"
        (RpcRequest.torrent_get [TorrentGetField.id, TorrentGetField.name])).sessionId
        = some "abc123"
    ∧ (operationRequest (TransClient.new "http://host/rpc") "abc123"
        (RpcRequest.torrent_action TorrentAction.start [1, 2, 3])).sessionId
        = some "abc123" :=
  typed_operations_two_round_trips (TransClient.new "http://host/rpc")
    decodeSessionNotSuccess decodeTorrentsOk decodeNothingOk (tAnswer 200 "")
    [TorrentGetField.id, TorrentGetField.name] TorrentAction.start [1, 2, 3]
    { status := 200
      headers := [("x-transmission-session-id", "abc123")]
      body := "" }
    "abc123" rfl (by decide)

/-- C4: for every call, when the transport delivers a 200 response to
the operation request whose body does not decode into the expected
typed envelope shape, the call returns a DecodeError carrying the
decoder's failure message (the context for diagnosing the parse
failure). -/
theorem call_decode_failure_returns_decode_error (c : TransClient) {RS : Type}
    (decode : String → Except String (RpcResponse RS))
    (t : Transport) (request : RpcRequest)
    (resp : HttpResponse) (sid : String) (respOp : HttpResponse) (msg : String)
    (hresp : t (tokenFetchRequest c) = Except.ok resp)
    (hhdr : headerGet resp.headers "x-transmission-session-id" = some sid)
    (hop : t (operationRequest c sid request) = Except.ok respOp)
    (hstatus : respOp.status = 200)
    (hdec : decode respOp.body = Except.error msg) :
    (c.call decode t request).fst = Outcome.failure (RpcError.DecodeError msg) := by
  rw [call_eval c decode t request resp sid hresp hhdr]
  dsimp only
  rw [hop]
  dsimp only
  rw [hdec]

/-- C4, witness: a 200 response with an undecodable body yields the
DecodeError with the decoder's message. -/
theorem call_decode_failure_returns_decode_error_witness :
    ((TransClient.new "http://host/rpc").call decodeTorrentsFail (tAnswer 200 "notjson")
        (RpcRequest.torrent_get [TorrentGetField.id])).fst
      = Outcome.failure (RpcError.DecodeError "invalid body: notjson") :=
  call_decode_failure_returns_decode_error (TransClient.new "http://host/rpc")
    decodeTorrentsFail (tAnswer 200 "notjson") (RpcRequest.torrent_get [TorrentGetField.id])
    { status := 200
      headers := [("x-transmission-session-id", "abc123")]
      body := "" }
    "abc123" { status := 200, headers := [], body := "notjson" } "invalid body: notjson"
    rfl (by decide) rfl rfl rfl

/-- C5: when the response body decodes successfully but its result
field is not the string success, the call still returns the envelope as
a normal successful typed value; nothing in the call path inspects the
result field. -/
theorem non_success_result_returned_as_ok (c : TransClient) {RS : Type}
    (decode : String → Except String (RpcResponse RS))
    (t : Transport) (request : RpcRequest)
    (resp : HttpResponse) (sid : String) (respOp : HttpResponse) (r : RpcResponse RS)
    (hresp : t (tokenFetchRequest c) = Except.ok resp)
    (hhdr : headerGet resp.headers "x-transmission-session-id" = some sid)
    (hop : t (operationRequest c sid request) = Except.ok respOp)
    (hdec : decode respOp.body = Except.ok r)
    (hres : r.result ≠ "success") :
    (c.call decode t request).fst = Outcome.ok r := by
  rw [call_eval c decode t request resp sid hresp hhdr]
  dsimp only
  rw [hop]
  dsimp only
  rw [hdec]

/-- C5, witness: an envelope whose result field is an application error
message is returned as an ok value. -/
theorem non_success_result_returned_as_ok_witness :
    ((TransClient.new "http://host/rpc").call decodeSessionNotSuccess (tAnswer 200 "body")
        RpcRequest.session_get).fst
      = Outcome.ok { result := "invalid torrent id", arguments := {} } :=
  non_success_result_returned_as_ok (TransClient.new "http://host/rpc")
    decodeSessionNotSuccess (tAnswer 200 "body") RpcRequest.session_get
    { status := 200
      headers := [("x-transmission-session-id", "abc123")]
      body := "" }
    "abc123" { status := 200, headers := [], body := "body" }
    { result := "invalid torrent id", arguments := {} }
    rfl (by decide) rfl rfl (by decide)

/-- C6: with the same transport, decoder and request, every HTTP
request dispatched by a client constructed with with_auth carries the
basic-auth credentials it was constructed with, and every HTTP request
dispatched by a client constructed with new carries no auth header. -/
theorem auth_header_follows_construction (url : String) (ba : BasicAuth)
    {RS : Type} (decode : String → Except String (RpcResponse RS))
    (t : Transport) (request : RpcRequest) :
    (∀ r ∈ ((TransClient.with_auth url ba).call decode t request).snd,
        r.auth = some ba)
    ∧ (∀ r ∈ ((TransClient.new url).call decode t request).snd,
        r.auth = none) := by
  constructor
  · intro r hr
    rcases call_trace_mem (TransClient.with_auth url ba) decode t request r hr with
      h | ⟨sid, h⟩
    · rw [h]; rfl
    · rw [h]; rfl
  · intro r hr
    rcases call_trace_mem (TransClient.new url) decode t request r hr with
      h | ⟨sid, h⟩
    · rw [h]; rfl
    · rw [h]; rfl

/-- C6, witness: at a concrete transport and request, the token-fetch
request of the with_auth client carries the credentials and the
token-fetch request of the new client carries none. -/
theorem auth_header_follows_construction_witness :
    (tokenFetchRequest
        (TransClient.with_auth "http://host/rpc" { user := "u", password := "p" })).auth
      = some { user := "u", password := "p" }
    ∧ (tokenFetchRequest (TransClient.new "http://host/rpc")).auth = none :=
  ⟨(auth_header_follows_construction "http://host/rpc" { user := "u", password := "p" }
      decodeSessionNotSuccess (tAnswer 200 "") RpcRequest.session_get).1
      (tokenFetchRequest
        (TransClient.with_auth "http://host/rpc" { user := "u", password := "p" }))
      (by decide),
   (auth_header_follows_construction "http://host/rpc" { user := "u", password := "p" }
      decodeSessionNotSuccess (tAnswer 200 "") RpcRequest.session_get).2
      (tokenFetchRequest (TransClient.new "http://host/rpc"))
      (by decide)⟩

/-- C7: each typed operation equals the generic call applied to the
corresponding RpcRequest constructor with the matching expected
response shape, for every client, decoder, transport and argument. -/
theorem typed_operations_delegate_to_call (c : TransClient)
    (decS : String → Except String (RpcResponse SessionGet))
    (decT : String → Except String (RpcResponse (Torrents Torrent)))
    (decN : String → Except String (RpcResponse Nothing))
    (t : Transport) (fields : List TorrentGetField)
    (action : TorrentAction) (ids : List Int) :
    c.session_get decS t = c.call decS t RpcRequest.session_get
    ∧ c.torrent_get decT t fields = c.call decT t (RpcRequest.torrent_get fields)
    ∧ c.torrent_action decN t action ids
        = c.call decN t (RpcRequest.torrent_action action ids) :=
  ⟨rfl, rfl, rfl⟩

/-- C8: in the state-passing reading of the &self methods, the client
a call finishes with is the client it started from: no operation
updates the url or auth fields or any other retained state. -/
theorem client_unchanged_by_calls (c : TransClient) {RS : Type}
    (decG : String → Except String (RpcResponse RS))
    (decS : String → Except String (RpcResponse SessionGet))
    (decT : String → Except String (RpcResponse (Torrents Torrent)))
    (decN : String → Except String (RpcResponse Nothing))
    (t : Transport) (request : RpcRequest) (fields : List TorrentGetField)
    (action : TorrentAction) (ids : List Int) :
    (c.callS decG t request).snd = c
    ∧ (c.session_getS decS t).snd = c
    ∧ (c.torrent_getS decT t fields).snd = c
    ∧ (c.torrent_actionS decN t action ids).snd = c
    ∧ ((c.callS decG t request).snd).url = c.url
    ∧ ((c.callS decG t request).snd).auth = c.auth :=
  ⟨rfl, rfl, rfl, rfl, rfl, rfl⟩

/-- C9: the generic call never inspects the status code of the
operation response: for an arbitrary status (409, 500, anything), if
the body decodes as the expected envelope shape the call returns it as
a successful typed value. -/
theorem status_code_not_inspected (c : TransClient) {RS : Type}
    (decode : String → Except String (RpcResponse RS))
    (t : Transport) (request : RpcRequest)
    (resp : HttpResponse) (sid : String) (status : Nat)
    (hs : List (String × String)) (body : String) (r : RpcResponse RS)
    (hresp : t (tokenFetchRequest c) = Except.ok resp)
    (hhdr : headerGet resp.headers "x-transmission-session-id" = some sid)
    (hop : t (operationRequest c sid request)
        = Except.ok { status := status, headers := hs, body := body })
    (hdec : decode body = Except.ok r) :
    (c.call decode t request).fst = Outcome.ok r := by
  rw [call_eval c decode t request resp sid hresp hhdr]
  dsimp only
  rw [hop]
  dsimp only
  rw [hdec]

/-- C9, witness: a 500 operation response with a decodable body is
returned as a successful typed value. -/
theorem status_code_not_inspected_witness :
    ((TransClient.new "http://host/rpc").call decodeTorrentsOk (tAnswer 500 "oops")
        (RpcRequest.torrent_get [TorrentGetField.id])).fst
      = Outcome.ok
          { result := "success"
            arguments := { torrents := [{ id := some 1, name := some "x", status := none }] } } :=
  status_code_not_inspected (TransClient.new "http://host/rpc")
    decodeTorrentsOk (tAnswer 500 "oops") (RpcRequest.torrent_get [TorrentGetField.id])
    { status := 200
      headers := [("x-transmission-session-id", "abc123")]
      body := "" }
    "abc123" 500 [] "oops"
    { result := "success"
      arguments := { torrents := [{ id := some 1, name := some "x", status := none }] } }
    rfl (by decide) rfl rfl

/-- C10: the client retains only its url and auth fields (rpc_request
is exactly the request template built from those two fields), and every
HTTP request a call dispatches is freshly built from rpc_request — the
token fetch is rpc_request with the session-get body, the operation
request is rpc_request with a session id and the request body — so no
transport handle or connection state is carried between the two round
trips or across calls. -/
theorem requests_fresh_from_rpc_request (c : TransClient) {RS : Type}
    (decode : String → Except String (RpcResponse RS))
    (t : Transport) (request : RpcRequest) :
    (∀ r ∈ (c.call decode t request).snd,
        r = (c.rpc_request).jsonBody RpcRequest.session_get
        ∨ ∃ sid, r = ((c.rpc_request).withSessionId sid).jsonBody request)
    ∧ c.rpc_request =
        { url := c.url
          auth := c.auth
          contentType := "application/json"
          sessionId := none
          body := none } :=
  ⟨call_trace_mem c decode t request, rfl⟩

/-- C10, witness: at a concrete client and transport, the dispatched
token-fetch request is rpc_request with the session-get body. -/
theorem requests_fresh_from_rpc_request_witness :
    tokenFetchRequest (TransClient.new "http://host/rpc")
        = ((TransClient.new "http://host/rpc").rpc_request).jsonBody RpcRequest.session_get
    ∨ ∃ sid, tokenFetchRequest (TransClient.new "http://host/rpc")
        = (((TransClient.new "http://host/rpc").rpc_request).withSessionId sid).jsonBody
            RpcRequest.session_get :=
  (requests_fresh_from_rpc_request (TransClient.new "http://host/rpc")
      decodeSessionNotSuccess (tAnswer 200 "") RpcRequest.session_get).1
    (tokenFetchRequest (TransClient.new "http://host/rpc")) (by decide)

end TransmissionRpc
